import Mathlib

/-!
# Verification of the serversguru-deploy core

Shallow embedding of the deployment orchestrator, the Servers.guru API
client, and the SSH provisioner of the `serversguru-deploy` repository,
together with proofs of the specified properties.

External I/O (HTTP responses, SSH command results, SFTP probe results,
container inspection output) is modelled by explicit oracle parameters:
each embedded function takes the sequence of values the outside world
would return and computes exactly what the TypeScript code computes from
them.  A remote call that can reject is modelled as an `Except String`
value carrying the thrown error message.  Timestamps and log formatting
are elided; the `errors` list of a deployment result is modelled exactly.
-/

/-! ## SSH provisioner session state (src/ssh/provisioner.ts)

`SshProvisioner` holds four nullable/boolean fields: `client`,
`sftpClient`, `connected` and `connectConfig`.  `SshState` records, for
each of them, whether it is currently set (non-null / true). -/

structure SshState where
  clientSome : Bool
  sftpSome : Bool
  connected : Bool
  configSome : Bool
deriving DecidableEq, Repr

/-- The session state after construction: every field null/false. -/
def initialSshState : SshState :=
  { clientSome := false, sftpSome := false, connected := false, configSome := false }

/-- Effect of one call to `SshProvisioner.disconnect`: the resulting
session state plus which release operations were performed
(`sftpEnded` ↔ `this.sftpClient.end()` was awaited, `clientEnded` ↔
`this.client.end()` was invoked).  The release calls themselves return
without error, so `disconnect` is total. -/
structure DisconnectEffect where
  state : SshState
  sftpEnded : Bool
  clientEnded : Bool
deriving DecidableEq, Repr

/-- `SshProvisioner.disconnect` (part_007 lines 258-271): ends the SFTP
sub-channel if present, ends the transport client if present, then
clears `connected` and `connectConfig`. -/
def disconnect (s : SshState) : DisconnectEffect :=
  { state := { clientSome := false, sftpSome := false, connected := false, configSome := false }
    sftpEnded := s.sftpSome
    clientEnded := s.clientSome }

/-- `SshProvisioner.getSftp` (part_007 lines 168-183): throws
`SSH not connected` when the transport is missing or not connected;
returns the existing sub-channel if present; otherwise requires the
stored connect config and lazily connects a fresh `SftpClient`, whose
connection outcome is the oracle `sftpConnect`.  Returns the session
state after the call. -/
def getSftp (s : SshState) (sftpConnect : Except String Unit) : Except String SshState :=
  if !s.clientSome || !s.connected then
    .error "SSH not connected"
  else if s.sftpSome then
    .ok s
  else if !s.configSome then
    .error "SSH config not available"
  else
    match sftpConnect with
    | .ok _ => .ok { s with sftpSome := true }
    | .error m => .error m

/-- `SshProvisioner.fileExists` (part_007 lines 237-245): obtains the
SFTP sub-channel *outside* any try/catch, then probes `sftp.stat`
inside a try/catch, mapping probe success to `true` and any probe
failure to `false`.  `statResult` is the oracle for the stat probe. -/
def fileExists (s : SshState) (sftpConnect : Except String Unit)
    (statResult : Except String Unit) : Except String Bool :=
  match getSftp s sftpConnect with
  | .error e => .error e
  | .ok _ =>
    match statResult with
    | .ok _ => .ok true
    | .error _ => .ok false

/-! ## SSH command execution (src/ssh/provisioner.ts, exec / execOrFail) -/

/-- `ExecResult` as produced by `SshProvisioner.exec`. -/
structure ExecResult where
  stdout : String
  stderr : String
  code : Int
  signal : Option String
deriving DecidableEq, Repr

/-- The resolution of `exec`'s promise on the stream `close` event
(part_007 lines 118-126): stdout/stderr are trimmed and the exit code is
`code ?? 0`, i.e. a null/absent exit code (signal-terminated process)
becomes the numeric exit code `0`. -/
def mkExecResult (stdout stderr : String) (code : Option Int) (signal : Option String) :
    ExecResult :=
  { stdout := stdout.trim, stderr := stderr.trim, code := code.getD 0, signal := signal }

/-- `SshProvisioner.execOrFail` (part_007 lines 142-152): throws on a
non-zero exit code, otherwise returns stdout only. -/
def execOrFail (command : String) (r : ExecResult) : Except String String :=
  if r.code ≠ 0 then
    .error ("Command failed with code " ++ toString r.code ++ ": " ++
      (command.take 100) ++ "\nstderr: " ++ r.stderr ++ "\nstdout: " ++ r.stdout)
  else
    .ok r.stdout

/-! ## Claim theorems for the SSH session -/

/-- C8: `disconnect()` is idempotent: from any session state one call
leaves the session Disconnected with the transport and the
lazily-created SFTP sub-channel both released (each release call issued
exactly when the corresponding handle was present), and a second call is
a no-op that performs no release calls and leaves the state
Disconnected. -/
theorem disconnect_idempotent (s : SshState) :
    (disconnect s).state.connected = false ∧
    (disconnect s).state.clientSome = false ∧
    (disconnect s).state.sftpSome = false ∧
    (disconnect s).state.configSome = false ∧
    (disconnect s).sftpEnded = s.sftpSome ∧
    (disconnect s).clientEnded = s.clientSome ∧
    disconnect (disconnect s).state =
      { state := (disconnect s).state, sftpEnded := false, clientEnded := false } := by
  simp [disconnect]

/-- C9 counterexample: with a disconnected session, `fileExists`
re-raises the `SSH not connected` failure instead of returning `false`,
refuting the claim that every failure mode (including a session that is
not connected) yields `false`. -/
theorem fileExists_not_connected_counterexample :
    fileExists initialSshState (.ok ()) (.error "probe failed") = .error "SSH not connected" ∧
    fileExists initialSshState (.ok ()) (.error "probe failed") ≠ .ok false := by
  constructor
  · rfl
  · simp [fileExists, getSftp, initialSshState]

/-- C9 (amended): when the session is connected and the SFTP sub-channel
is obtainable (already created, or creatable from the stored config),
`fileExists` returns `true` exactly when the stat probe succeeds and
`false` on every probe failure; when the session is not connected the
`SSH not connected` error propagates instead of being mapped to
`false`. -/
theorem fileExists_spec_amended (s : SshState) (sftpConnect : Except String Unit)
    (statResult : Except String Unit) :
    (s.clientSome = true → s.connected = true →
      (s.sftpSome = true ∨ (s.configSome = true ∧ sftpConnect = .ok ())) →
      fileExists s sftpConnect statResult =
        .ok (match statResult with | .ok _ => true | .error _ => false)) ∧
    (s.connected = false →
      fileExists s sftpConnect statResult = .error "SSH not connected") := by
  constructor
  · intro hc hconn hsub
    rcases hsub with hs | ⟨hcfg, hok⟩
    · cases statResult <;> simp [fileExists, getSftp, hc, hconn, hs]
    · subst hok
      cases hs : s.sftpSome <;> cases statResult <;>
        simp [fileExists, getSftp, hc, hconn, hcfg, hs]
  · intro hconn
    simp [fileExists, getSftp, hconn]

/-- C9 witness: a connected session with an existing SFTP sub-channel
maps a failing stat probe to `false`, and a disconnected session
propagates the error. -/
theorem fileExists_spec_amended_witness :
    fileExists { clientSome := true, sftpSome := true, connected := true, configSome := true }
      (.ok ()) (.error "no such file") = .ok false ∧
    fileExists initialSshState (.ok ()) (.ok ()) = .error "SSH not connected" := by
  constructor
  · exact (fileExists_spec_amended
      { clientSome := true, sftpSome := true, connected := true, configSome := true }
      (.ok ()) (.error "no such file")).1 rfl rfl (Or.inl rfl)
  · exact (fileExists_spec_amended initialSshState (.ok ()) (.ok ())).2 rfl

/-- C10: when a remote command's stream closes with a null/absent exit
code (signal-terminated process), `exec` resolves with numeric exit code
`0`, and consequently `execOrFail` treats the command as a success and
returns its (trimmed) stdout instead of failing. -/
theorem exec_null_exit_code_spec (stdout stderr command : String) (signal : Option String) :
    (mkExecResult stdout stderr none signal).code = 0 ∧
    execOrFail command (mkExecResult stdout stderr none signal) = .ok stdout.trim := by
  constructor
  · rfl
  · simp [execOrFail, mkExecResult]

/-! ## ServersGuruClient.waitForStatus (src/api/servers-guru.ts)

The status values returned by successive `getServerStatus` calls are
modelled by the oracle `g : Nat → String` (`g i` is the status observed
in the i-th loop iteration).  Each iteration is instantaneous except for
the `sleep(pollInterval)` between iterations, so the loop guard
`Date.now() - startTime < timeout` sees `elapsed = i * pollInterval` at
iteration `i`.  The recursion is fuelled; the top-level entry point
supplies `timeout + 1` fuel, which is never exhausted before the guard
fails whenever `pollInterval > 0`. -/

inductive WaitOutcome where
  /-- the loop returned the status equal to `targetStatus` -/
  | success (s : String)
  /-- `ServersGuruApiError`: server entered error state -/
  | resourceError
  /-- `ServersGuruApiError`: timeout waiting for the target status -/
  | timedOut
deriving DecidableEq, Repr

/-- The polling loop of `waitForStatus` (servers-guru.ts lines 457-470).
Returns the list of statuses passed to `onProgress` (one per iteration,
in order, including the terminal one) together with the outcome. -/
def waitLoop (g : Nat → String) (target : String) (pollInterval timeout : Nat) :
    Nat → Nat → Nat → List String × WaitOutcome
  | _, _, 0 => ([], .timedOut)
  | i, elapsed, fuel + 1 =>
    if elapsed < timeout then
      let s := g i
      if s = target then ([s], .success s)
      else if s = "error" then ([s], .resourceError)
      else
        let r := waitLoop g target pollInterval timeout (i + 1) (elapsed + pollInterval) fuel
        (s :: r.1, r.2)
    else ([], .timedOut)

/-- `ServersGuruClient.waitForStatus` (servers-guru.ts lines 444-475),
starting at iteration 0 with zero elapsed time. -/
def waitForStatus (g : Nat → String) (target : String) (timeout pollInterval : Nat) :
    List String × WaitOutcome :=
  waitLoop g target pollInterval timeout 0 0 (timeout + 1)

/-- Number of iterations the `waitForStatus` loop performs when no
terminal status is ever observed: the guard is re-checked after each
`pollInterval` advance. -/
def waitObsCount (pollInterval timeout : Nat) : Nat → Nat → Nat
  | _, 0 => 0
  | elapsed, fuel + 1 =>
    if elapsed < timeout then
      waitObsCount pollInterval timeout (elapsed + pollInterval) fuel + 1
    else 0

/-- Total number of statuses observed by a run of `waitForStatus` that
never sees a terminal status. -/
def waitObsTotal (timeout pollInterval : Nat) : Nat :=
  waitObsCount pollInterval timeout 0 (timeout + 1)

/-- Prepending the first observation to a shifted observation list. -/
lemma cons_range_map_shift {α : Type} (g : Nat → α) (i n : Nat) :
    g i :: (List.range n).map (fun j => g (i + 1 + j)) =
      (List.range (n + 1)).map (fun j => g (i + j)) := by
  rw [List.range_succ_eq_map]
  simp only [List.map_cons, List.map_map, Nat.add_zero]
  congr 1
  apply List.map_congr_left
  intro a _
  show g (i + 1 + a) = g (i + (a + 1))
  congr 1
  omega

/-- If the `d`-th status from iteration `i` on equals the target and no
earlier one is terminal, the loop succeeds there, having observed
exactly the first `d + 1` statuses. -/
lemma waitLoop_success (g : Nat → String) (target : String) (p timeout : Nat) :
    ∀ (d i elapsed fuel : Nat), d < fuel → elapsed + d * p < timeout →
      g (i + d) = target →
      (∀ j < d, g (i + j) ≠ target ∧ g (i + j) ≠ "error") →
      waitLoop g target p timeout i elapsed fuel =
        ((List.range (d + 1)).map (fun j => g (i + j)), .success target) := by
  intro d
  induction d with
  | zero =>
    intro i elapsed fuel hfuel helapsed htgt _
    obtain ⟨fuel', rfl⟩ : ∃ f, fuel = f + 1 := ⟨fuel - 1, by omega⟩
    have hel : elapsed < timeout := by omega
    simp only [waitLoop, if_pos hel]
    rw [Nat.add_zero] at htgt
    simp [htgt, List.range_succ]
  | succ d ih =>
    intro i elapsed fuel hfuel helapsed htgt hfirst
    obtain ⟨fuel', rfl⟩ : ∃ f, fuel = f + 1 := ⟨fuel - 1, by omega⟩
    have hel : elapsed < timeout := by
      have : d.succ * p ≥ 0 := Nat.zero_le _
      omega
    have h0 := hfirst 0 (Nat.succ_pos d)
    rw [Nat.add_zero] at h0
    simp only [waitLoop, if_pos hel, if_neg h0.1, if_neg h0.2]
    have hrec := ih (i + 1) (elapsed + p) fuel' (by omega)
      (by rw [Nat.succ_mul] at helapsed; omega)
      (by have : i + 1 + d = i + (d + 1) := by omega
          rw [this]; exact htgt)
      (fun j hj => by
        have : i + 1 + j = i + (j + 1) := by omega
        rw [this]; exact hfirst (j + 1) (by omega))
    rw [hrec]
    simp only
    rw [cons_range_map_shift]

/-- If the `d`-th status from iteration `i` on is the terminal `error`
(and differs from the target) and no earlier one is terminal, the loop
fails with the resource-error outcome there. -/
lemma waitLoop_error (g : Nat → String) (target : String) (p timeout : Nat) :
    ∀ (d i elapsed fuel : Nat), d < fuel → elapsed + d * p < timeout →
      g (i + d) = "error" → g (i + d) ≠ target →
      (∀ j < d, g (i + j) ≠ target ∧ g (i + j) ≠ "error") →
      waitLoop g target p timeout i elapsed fuel =
        ((List.range (d + 1)).map (fun j => g (i + j)), .resourceError) := by
  intro d
  induction d with
  | zero =>
    intro i elapsed fuel hfuel helapsed herr hne _
    obtain ⟨fuel', rfl⟩ : ∃ f, fuel = f + 1 := ⟨fuel - 1, by omega⟩
    have hel : elapsed < timeout := by omega
    rw [Nat.add_zero] at herr hne
    rw [herr] at hne
    simp only [waitLoop, if_pos hel, herr, if_neg hne]
    simp [herr, List.range_succ]
  | succ d ih =>
    intro i elapsed fuel hfuel helapsed herr hne hfirst
    obtain ⟨fuel', rfl⟩ : ∃ f, fuel = f + 1 := ⟨fuel - 1, by omega⟩
    have hel : elapsed < timeout := by
      omega
    have h0 := hfirst 0 (Nat.succ_pos d)
    rw [Nat.add_zero] at h0
    simp only [waitLoop, if_pos hel, if_neg h0.1, if_neg h0.2]
    have hrec := ih (i + 1) (elapsed + p) fuel' (by omega)
      (by rw [Nat.succ_mul] at helapsed; omega)
      (by have : i + 1 + d = i + (d + 1) := by omega
          rw [this]; exact herr)
      (by have : i + 1 + d = i + (d + 1) := by omega
          rw [this]; exact hne)
      (fun j hj => by
        have : i + 1 + j = i + (j + 1) := by omega
        rw [this]; exact hfirst (j + 1) (by omega))
    rw [hrec]
    simp only
    rw [cons_range_map_shift]

/-- If no observed status is terminal, the loop times out after exactly
`waitObsCount` observations. -/
lemma waitLoop_timeout (g : Nat → String) (target : String) (p timeout : Nat) :
    ∀ (fuel i elapsed : Nat),
      (∀ j < waitObsCount p timeout elapsed fuel,
        g (i + j) ≠ target ∧ g (i + j) ≠ "error") →
      waitLoop g target p timeout i elapsed fuel =
        ((List.range (waitObsCount p timeout elapsed fuel)).map (fun j => g (i + j)),
          .timedOut) := by
  intro fuel
  induction fuel with
  | zero => intro i elapsed _; simp [waitLoop, waitObsCount]
  | succ fuel ih =>
    intro i elapsed hall
    by_cases hel : elapsed < timeout
    · have hcnt : waitObsCount p timeout elapsed (fuel + 1) =
          waitObsCount p timeout (elapsed + p) fuel + 1 := by
        simp [waitObsCount, hel]
      rw [hcnt] at hall
      have h0 := hall 0 (Nat.succ_pos _)
      rw [Nat.add_zero] at h0
      simp only [waitLoop, if_pos hel, if_neg h0.1, if_neg h0.2]
      have hrec := ih (i + 1) (elapsed + p)
        (fun j hj => by
          have : i + 1 + j = i + (j + 1) := by omega
          rw [this]; exact hall (j + 1) (by omega))
      rw [hrec, hcnt]
      simp only
      rw [cons_range_map_shift]
    · simp [waitLoop, waitObsCount, hel]

/-- The iterations counted by `waitObsCount` with the top-level fuel are
exactly those whose start time lies before the timeout. -/
lemma waitObsCount_mem (p timeout : Nat) (hp : 0 < p) :
    ∀ (fuel elapsed : Nat), timeout ≤ elapsed + fuel →
      ∀ j, (j < waitObsCount p timeout elapsed fuel ↔ elapsed + j * p < timeout) := by
  intro fuel
  induction fuel with
  | zero =>
    intro elapsed hle j
    simp only [waitObsCount]
    constructor
    · omega
    · intro h
      have : elapsed ≤ elapsed + j * p := Nat.le_add_right _ _
      omega
  | succ fuel ih =>
    intro elapsed hle j
    by_cases hel : elapsed < timeout
    · simp only [waitObsCount, if_pos hel]
      cases j with
      | zero => simp [hel]
      | succ k =>
        have := ih (elapsed + p) (by omega) k
        rw [Nat.succ_mul]
        constructor
        · intro h
          have hk := this.1 (by omega)
          omega
        · intro h
          have hk := this.2 (by omega)
          omega
    · simp only [waitObsCount, if_neg hel]
      constructor
      · omega
      · intro h
        have : elapsed ≤ elapsed + j * p := Nat.le_add_right _ _
        omega

/-- C3 counterexample: with `targetStatus = "error"` the target check
precedes the error check, so a run that observes the terminal `error`
status within the timeout returns successfully instead of throwing the
ResourceError-class error, refuting the claim as stated for every
`targetStatus`. -/
theorem waitForStatus_error_target_counterexample :
    (waitForStatus (fun _ => "error") "error" 10 1).2 = WaitOutcome.success "error" ∧
    (waitForStatus (fun _ => "error") "error" 10 1).2 ≠ WaitOutcome.resourceError := by
  constructor
  · rfl
  · intro h
    simp [waitForStatus, waitLoop] at h

/-- C3 (amended): for every (positive) poll interval, status stream and
`targetStatus`: the loop returns successfully as soon as an observed
status equals `targetStatus` (this check precedes the error check, so
`targetStatus = "error"` returns success on observing `"error"`);
provided `targetStatus ≠ "error"`, it throws the ResourceError-class
error immediately upon observing the terminal `"error"` status,
independent of the remaining timeout; it throws the Timeout-class error
if neither occurs within the timeout; and `onProgress` is invoked once
per observed status, in order, including repeated identical statuses
(the observation lists below).  The iterations observed are exactly
those starting before `timeout` elapses. -/
theorem waitForStatus_spec_amended (g : Nat → String) (target : String)
    (timeout pollInterval : Nat) (hp : 0 < pollInterval) :
    (∀ i, i * pollInterval < timeout → g i = target →
      (∀ j < i, g j ≠ target ∧ g j ≠ "error") →
      waitForStatus g target timeout pollInterval =
        ((List.range (i + 1)).map g, .success target)) ∧
    (target ≠ "error" → ∀ i, i * pollInterval < timeout → g i = "error" →
      (∀ j < i, g j ≠ target ∧ g j ≠ "error") →
      waitForStatus g target timeout pollInterval =
        ((List.range (i + 1)).map g, .resourceError)) ∧
    ((∀ j < waitObsTotal timeout pollInterval, g j ≠ target ∧ g j ≠ "error") →
      waitForStatus g target timeout pollInterval =
        ((List.range (waitObsTotal timeout pollInterval)).map g, .timedOut)) ∧
    (∀ j, j < waitObsTotal timeout pollInterval ↔ j * pollInterval < timeout) := by
  refine ⟨?_, ?_, ?_, ?_⟩
  · intro i hi htgt hfirst
    have hfuel : i < timeout + 1 := by
      have : i ≤ i * pollInterval := Nat.le_mul_of_pos_right i hp
      omega
    have := waitLoop_success g target pollInterval timeout i 0 0 (timeout + 1)
      hfuel (by omega) (by simpa using htgt) (fun j hj => by simpa using hfirst j hj)
    simpa [waitForStatus] using this
  · intro hne i hi herr hfirst
    have hfuel : i < timeout + 1 := by
      have : i ≤ i * pollInterval := Nat.le_mul_of_pos_right i hp
      omega
    have := waitLoop_error g target pollInterval timeout i 0 0 (timeout + 1)
      hfuel (by omega) (by simpa using herr)
      (by simp only [Nat.zero_add]; rw [herr]; exact fun h => hne h.symm)
      (fun j hj => by simpa using hfirst j hj)
    simpa [waitForStatus] using this
  · intro hall
    have := waitLoop_timeout g target pollInterval timeout (timeout + 1) 0 0
      (fun j hj => by simpa using hall j (by simpa [waitObsTotal] using hj))
    simpa [waitForStatus, waitObsTotal] using this
  · intro j
    have := waitObsCount_mem pollInterval timeout hp (timeout + 1) 0 (by omega) j
    simpa [waitObsTotal] using this

/-- C3 witness: a stream that reports `provisioning` once and then
`running` reaches the target `running` at iteration 1 (both observations
reported to `onProgress`); a stream stuck at `provisioning` times out
after exactly 3 observations with `timeout = 3, pollInterval = 1`. -/
theorem waitForStatus_spec_amended_witness :
    waitForStatus (fun i => if i = 0 then "provisioning" else "running") "running" 30 10 =
      (["provisioning", "running"], .success "running") ∧
    waitForStatus (fun _ => "provisioning") "running" 3 1 =
      (["provisioning", "provisioning", "provisioning"], .timedOut) := by
  constructor
  · have h := (waitForStatus_spec_amended
      (fun i => if i = 0 then "provisioning" else "running") "running" 30 10
      (by decide)).1 1 (by decide) (by decide) (by decide)
    rw [h]
    decide
  · have h := (waitForStatus_spec_amended (fun _ => "provisioning") "running" 3 1
      (by decide)).2.2.1 (by decide)
    rw [h]
    decide

/-! ## ServersGuruClient.orderVps acknowledge-without-details branch
(src/api/servers-guru.ts)

When the order endpoint answers with a bare success acknowledgement and
no server details, `orderVps` polls `listServers` up to 12 times at a
5-second interval looking for a server id outside the pre-order id set.
`listings attempt` is the oracle for the result of the `listServers`
call made in poll attempt `attempt` (0-based); `serversBefore` is the
listing snapshotted before the order was placed. -/

/-- A server as it appears in a `listServers` result, restricted to the
fields `orderVps` consumes. -/
structure SInfo where
  id : Nat
  ipv4 : String
deriving DecidableEq, Repr

/-- The result of a successful `orderVps`, restricted to the fields the
acknowledge branch produces. -/
structure OrderResult where
  serverId : Nat
  ipv4 : String
  password : String
deriving DecidableEq, Repr

/-- Error message thrown when the polling budget is exhausted. -/
def orderNotFoundMsg : String := "VPS ordered but could not find new server in list"

/-- `serversAfter.find((s) => !existingIds.has(s.id))` from the polling
loop: the first listed server whose id is outside the pre-order set. -/
def findNewServer (existingIds : List Nat) (servers : List SInfo) : Option SInfo :=
  servers.find? (fun s => !(existingIds.contains s.id))

/-- The 12-attempt polling loop of the acknowledge branch
(servers-guru.ts lines 299-315 and 846-862, identical in both revisions
of the file): each attempt sleeps 5000 ms, lists the servers, and
returns the first new server with an empty password; exhausting the
attempts throws the not-found error. -/
def orderPollLoop (listings : Nat → List SInfo) (existingIds : List Nat) :
    Nat → Nat → Except String OrderResult
  | _, 0 => .error orderNotFoundMsg
  | attempt, k + 1 =>
    match findNewServer existingIds (listings attempt) with
    | some s => .ok { serverId := s.id, ipv4 := s.ipv4, password := "" }
    | none => orderPollLoop listings existingIds (attempt + 1) k

/-- `maxAttempts` of the polling loop. -/
def orderMaxAttempts : Nat := 12

/-- Fixed inter-attempt sleep of the polling loop, in milliseconds. -/
def orderPollIntervalMs : Nat := 5000

/-- `orderVps` after the provider acknowledged the order without
returning resource details: snapshot the pre-order id set, then poll. -/
def orderVpsAck (listings : Nat → List SInfo) (serversBefore : List SInfo) :
    Except String OrderResult :=
  orderPollLoop listings (serversBefore.map (fun s => s.id)) 0 orderMaxAttempts

/-- `find?` returns the unique element satisfying the predicate when
there is exactly one. -/
lemma find?_of_unique {α : Type} {p : α → Bool} {l : List α} {s : α}
    (hs : s ∈ l) (hp : p s = true) (huniq : ∀ t ∈ l, p t = true → t = s) :
    l.find? p = some s := by
  induction l with
  | nil => cases hs
  | cons a l ih =>
    by_cases hpa : p a = true
    · have ha : a = s := huniq a (List.mem_cons_self a l) hpa
      subst ha
      simp [List.find?, hpa]
    · have hne : a ≠ s := fun h => hpa (h ▸ hp)
      have hs' : s ∈ l := by
        rcases List.mem_cons.1 hs with h | h
        · exact absurd h.symm hne
        · exact h
      have hrec := ih hs' (fun t ht hpt => huniq t (List.mem_cons_of_mem a ht) hpt)
      have hpa' : p a = false := by revert hpa; cases p a <;> simp
      simp only [List.find?, hpa']
      exact hrec

/-- Soundness of the polling loop: a returned server id is present in
one of the consulted listings, is outside the pre-order id set, and
carries an empty password. -/
lemma orderPollLoop_sound (listings : Nat → List SInfo) (ex : List Nat) :
    ∀ (k a : Nat) (r : OrderResult), orderPollLoop listings ex a k = .ok r →
      ∃ d < k, (∃ s ∈ listings (a + d), s.id = r.serverId ∧ s.ipv4 = r.ipv4) ∧
        r.serverId ∉ ex ∧ r.password = "" := by
  intro k
  induction k with
  | zero => intro a r h; simp [orderPollLoop] at h
  | succ k ih =>
    intro a r h
    simp only [orderPollLoop] at h
    cases hf : findNewServer ex (listings a) with
    | some s =>
      rw [hf] at h
      have hf' : (listings a).find? (fun t => !(ex.contains t.id)) = some s := hf
      have hmem : s ∈ listings a := List.mem_of_find?_eq_some hf'
      have hp := List.find?_some hf'
      have hnot : s.id ∉ ex := by
        intro hin
        rw [Bool.not_eq_true', ← Bool.not_eq_true] at hp
        exact hp (List.elem_iff.2 hin)
      have hr : r = { serverId := s.id, ipv4 := s.ipv4, password := "" } := by
        cases h; rfl
      refine ⟨0, Nat.succ_pos k, ⟨s, by simpa using hmem, ?_, ?_⟩, ?_, ?_⟩ <;>
        simp [hr, hnot]
    | none =>
      rw [hf] at h
      obtain ⟨d, hd, hmem, hnot, hpw⟩ := ih (a + 1) r h
      refine ⟨d + 1, by omega, ?_, hnot, hpw⟩
      have : a + (d + 1) = a + 1 + d := by omega
      rw [this]
      exact hmem

/-- If every consulted listing contains only pre-existing ids, the loop
exhausts its budget and throws the not-found error. -/
lemma orderPollLoop_none (listings : Nat → List SInfo) (ex : List Nat) :
    ∀ (k a : Nat), (∀ d < k, findNewServer ex (listings (a + d)) = none) →
      orderPollLoop listings ex a k = .error orderNotFoundMsg := by
  intro k
  induction k with
  | zero => intro a _; simp [orderPollLoop]
  | succ k ih =>
    intro a hall
    have h0 := hall 0 (Nat.succ_pos k)
    rw [Nat.add_zero] at h0
    simp only [orderPollLoop, h0]
    exact ih (a + 1) (fun d hd => by
      have : a + 1 + d = a + (d + 1) := by omega
      rw [this]
      exact hall (d + 1) (by omega))

/-- A listing with only pre-existing ids yields no new server. -/
lemma findNewServer_eq_none (ex : List Nat) (servers : List SInfo)
    (h : ∀ s ∈ servers, s.id ∈ ex) : findNewServer ex servers = none := by
  apply List.find?_eq_none.2
  intro s hs
  simp only [Bool.not_eq_true', Bool.not_eq_false]
  exact List.elem_iff.2 (h s hs)

/-- If the first new server appears (uniquely) at attempt `d`, the loop
returns exactly that server with an empty password. -/
lemma orderPollLoop_first (listings : Nat → List SInfo) (ex : List Nat) :
    ∀ (d k a : Nat) (s : SInfo), d < k → s ∈ listings (a + d) → s.id ∉ ex →
      (∀ t ∈ listings (a + d), t.id ∉ ex → t = s) →
      (∀ j < d, ∀ t ∈ listings (a + j), t.id ∈ ex) →
      orderPollLoop listings ex a k = .ok { serverId := s.id, ipv4 := s.ipv4, password := "" } := by
  intro d
  induction d with
  | zero =>
    intro k a s hk hmem hnew huniq _
    obtain ⟨k', rfl⟩ : ∃ k', k = k' + 1 := ⟨k - 1, by omega⟩
    rw [Nat.add_zero] at hmem huniq
    have hfind : findNewServer ex (listings a) = some s := by
      apply find?_of_unique hmem
      · simp only [Bool.not_eq_true']
        rw [← Bool.not_eq_true]
        intro hc
        exact hnew (List.elem_iff.1 hc)
      · intro t ht hpt
        apply huniq t ht
        intro hin
        rw [Bool.not_eq_true', ← Bool.not_eq_true] at hpt
        exact hpt (List.elem_iff.2 hin)
    simp [orderPollLoop, hfind]
  | succ d ih =>
    intro k a s hk hmem hnew huniq hbefore
    obtain ⟨k', rfl⟩ : ∃ k', k = k' + 1 := ⟨k - 1, by omega⟩
    have h0 : findNewServer ex (listings a) = none := by
      apply findNewServer_eq_none
      intro t ht
      exact hbefore 0 (Nat.succ_pos d) t (by rw [Nat.add_zero]; exact ht)
    simp only [orderPollLoop, h0]
    apply ih k' (a + 1) s (by omega)
    · have : a + 1 + d = a + (d + 1) := by omega
      rw [this]; exact hmem
    · exact hnew
    · have : a + 1 + d = a + (d + 1) := by omega
      rw [this]; exact huniq
    · intro j hj t ht
      have : a + 1 + j = a + (j + 1) := by omega
      rw [this] at ht
      exact hbefore (j + 1) (by omega) t ht

/-- C2: when the provider acknowledges an order without returning
resource details, `orderVps` polls the server listing a bounded number
of times (`orderMaxAttempts = 12`, fixed 5 s interval): (a) any returned
server has an id present in one of the post-order listings and outside
the pre-order id set, with an empty password; (b) if no id outside the
pre-order set ever appears within the polling budget, it throws the
not-found-class error rather than returning a wrong id; (c) when the new
id appears (uniquely) at some attempt, exactly that server is
returned. -/
theorem orderVps_ack_set_difference (listings : Nat → List SInfo)
    (serversBefore : List SInfo) :
    (∀ r, orderVpsAck listings serversBefore = .ok r →
      ∃ d < orderMaxAttempts,
        (∃ s ∈ listings d, s.id = r.serverId ∧ s.ipv4 = r.ipv4) ∧
        r.serverId ∉ serversBefore.map (fun t => t.id) ∧ r.password = "") ∧
    ((∀ d < orderMaxAttempts, ∀ s ∈ listings d,
        s.id ∈ serversBefore.map (fun t => t.id)) →
      orderVpsAck listings serversBefore = .error orderNotFoundMsg) ∧
    (∀ d s, d < orderMaxAttempts → s ∈ listings d →
      s.id ∉ serversBefore.map (fun t => t.id) →
      (∀ t ∈ listings d, t.id ∉ serversBefore.map (fun t' => t'.id) → t = s) →
      (∀ j < d, ∀ t ∈ listings j, t.id ∈ serversBefore.map (fun t' => t'.id)) →
      orderVpsAck listings serversBefore =
        .ok { serverId := s.id, ipv4 := s.ipv4, password := "" }) := by
  refine ⟨?_, ?_, ?_⟩
  · intro r h
    rw [orderVpsAck] at h
    obtain ⟨d, hd, hmem, hnot, hpw⟩ :=
      orderPollLoop_sound listings (serversBefore.map (fun t => t.id))
        orderMaxAttempts 0 r h
    exact ⟨d, hd, by simpa using hmem, hnot, hpw⟩
  · intro hall
    rw [orderVpsAck]
    apply orderPollLoop_none
    intro d hd
    apply findNewServer_eq_none
    intro s hs
    exact hall d (by simpa using hd) s (by simpa using hs)
  · intro d s hd hmem hnew huniq hbefore
    rw [orderVpsAck]
    apply orderPollLoop_first listings _ d orderMaxAttempts 0 s hd
      (by simpa using hmem) hnew (by simpa using huniq)
      (fun j hj t ht => hbefore j hj t (by simpa using ht))

/-- C2 witness: with one pre-existing server (id 1) and the new server
id 7 appearing in the listing of poll attempt 3, `orderVps` returns
exactly server 7 with an empty password; with listings that never show a
new id it throws the not-found error. -/
theorem orderVps_ack_set_difference_witness :
    orderVpsAck (fun d => if d = 3 then [⟨1, "10.0.0.1"⟩, ⟨7, "10.0.0.7"⟩] else [⟨1, "10.0.0.1"⟩])
      [⟨1, "10.0.0.1"⟩] = .ok { serverId := 7, ipv4 := "10.0.0.7", password := "" } ∧
    orderVpsAck (fun _ => [⟨1, "10.0.0.1"⟩]) [⟨1, "10.0.0.1"⟩] =
      .error orderNotFoundMsg := by
  constructor
  · exact (orderVps_ack_set_difference
      (fun d => if d = 3 then [⟨1, "10.0.0.1"⟩, ⟨7, "10.0.0.7"⟩] else [⟨1, "10.0.0.1"⟩])
      [⟨1, "10.0.0.1"⟩]).2.2 3 ⟨7, "10.0.0.7"⟩ (by decide) (by decide) (by decide)
      (by decide) (by decide)
  · exact (orderVps_ack_set_difference (fun _ => [⟨1, "10.0.0.1"⟩])
      [⟨1, "10.0.0.1"⟩]).2.1 (by decide)

/-! ## DeploymentOrchestrator.waitForContainerHealth (part_009 lines 305-330)

`inspect i` is the oracle for the trimmed stdout
(`result.stdout.trim()`) of the `docker inspect` command in attempt `i`
(the `|| echo "starting"` fallback makes the command itself never fail); `logsAt i` is the (trimmed)
stdout/stderr pair of the `docker logs` capture issued if attempt `i`
observes `unhealthy`. -/

/-- Error message attached when the container is observed unhealthy,
carrying the captured container logs. -/
def containerUnhealthyMsg (logsOut logsErr : String) : String :=
  "Container is unhealthy. Logs:\n" ++ logsOut ++ "\n" ++ logsErr

/-- The attempt loop: `healthy` ends the wait successfully, `unhealthy`
aborts with the captured logs, any other status retries after the fixed
interval; exhausting the attempt budget returns successfully
("continue anyway"). -/
def containerHealthLoop (inspect : Nat → String) (logsAt : Nat → String × String) :
    Nat → Nat → Except String Unit
  | _, 0 => .ok ()
  | i, k + 1 =>
    let status := inspect i
    if status = "healthy" then .ok ()
    else if status = "unhealthy" then
      .error (containerUnhealthyMsg (logsAt i).1 (logsAt i).2)
    else containerHealthLoop inspect logsAt (i + 1) k

/-- `maxAttempts` of the container-health wait. -/
def containerHealthMaxAttempts : Nat := 30

/-- Fixed inter-attempt interval of the container-health wait, in ms. -/
def containerHealthIntervalMs : Nat := 2000

/-- `DeploymentOrchestrator.waitForContainerHealth`. -/
def waitForContainerHealth (inspect : Nat → String) (logsAt : Nat → String × String) :
    Except String Unit :=
  containerHealthLoop inspect logsAt 0 containerHealthMaxAttempts

/-- If attempt `d` (counted from start index `i`) is the first to observe
a terminal container status, the loop ends there: successfully on
`healthy`, with the logs-carrying error on `unhealthy`. -/
lemma containerHealthLoop_terminal (inspect : Nat → String) (logsAt : Nat → String × String) :
    ∀ (d k i : Nat), d < k →
      (∀ j < d, inspect (i + j) ≠ "healthy" ∧ inspect (i + j) ≠ "unhealthy") →
      ((inspect (i + d) = "healthy" →
        containerHealthLoop inspect logsAt i k = .ok ()) ∧
      (inspect (i + d) = "unhealthy" →
        containerHealthLoop inspect logsAt i k =
          .error (containerUnhealthyMsg (logsAt (i + d)).1 (logsAt (i + d)).2))) := by
  intro d
  induction d with
  | zero =>
    intro k i hk _
    obtain ⟨k', rfl⟩ : ∃ k', k = k' + 1 := ⟨k - 1, by omega⟩
    rw [Nat.add_zero]
    constructor
    · intro hh
      simp [containerHealthLoop, hh]
    · intro hu
      have hne : inspect i ≠ "healthy" := by rw [hu]; decide
      simp [containerHealthLoop, hu, hne]
  | succ d ih =>
    intro k i hk hfirst
    obtain ⟨k', rfl⟩ : ∃ k', k = k' + 1 := ⟨k - 1, by omega⟩
    have h0 := hfirst 0 (Nat.succ_pos d)
    rw [Nat.add_zero] at h0
    have hrec := ih k' (i + 1) (by omega) (fun j hj => by
      have : i + 1 + j = i + (j + 1) := by omega
      rw [this]
      exact hfirst (j + 1) (by omega))
    have hshift : i + 1 + d = i + (d + 1) := by omega
    rw [hshift] at hrec
    constructor
    · intro hh
      simp only [containerHealthLoop, if_neg h0.1, if_neg h0.2]
      exact hrec.1 hh
    · intro hu
      simp only [containerHealthLoop, if_neg h0.1, if_neg h0.2]
      exact hrec.2 hu

/-- If no attempt observes a terminal status, the loop exhausts its
budget and returns successfully. -/
lemma containerHealthLoop_exhaust (inspect : Nat → String) (logsAt : Nat → String × String) :
    ∀ (k i : Nat),
      (∀ j < k, inspect (i + j) ≠ "healthy" ∧ inspect (i + j) ≠ "unhealthy") →
      containerHealthLoop inspect logsAt i k = .ok () := by
  intro k
  induction k with
  | zero => intro i _; simp [containerHealthLoop]
  | succ k ih =>
    intro i hall
    have h0 := hall 0 (Nat.succ_pos k)
    rw [Nat.add_zero] at h0
    simp only [containerHealthLoop, if_neg h0.1, if_neg h0.2]
    exact ih (i + 1) (fun j hj => by
      have : i + 1 + j = i + (j + 1) := by omega
      rw [this]
      exact hall (j + 1) (by omega))

/-- C7: the container-health wait polls the runtime's health status up
to `containerHealthMaxAttempts = 30` attempts at a fixed 2 s interval;
the first observation of `unhealthy` aborts immediately with an error
carrying the captured container logs, the first observation of
`healthy` ends the wait successfully, and exhausting all attempts
without observing either terminal value returns successfully
("continue anyway") instead of failing. -/
theorem waitForContainerHealth_spec (inspect : Nat → String)
    (logsAt : Nat → String × String) :
    (∀ i < containerHealthMaxAttempts,
      (∀ j < i, inspect j ≠ "healthy" ∧ inspect j ≠ "unhealthy") →
      (inspect i = "healthy" →
        waitForContainerHealth inspect logsAt = .ok ()) ∧
      (inspect i = "unhealthy" →
        waitForContainerHealth inspect logsAt =
          .error (containerUnhealthyMsg (logsAt i).1 (logsAt i).2))) ∧
    ((∀ j < containerHealthMaxAttempts,
        inspect j ≠ "healthy" ∧ inspect j ≠ "unhealthy") →
      waitForContainerHealth inspect logsAt = .ok ()) := by
  constructor
  · intro i hi hfirst
    have := containerHealthLoop_terminal inspect logsAt i containerHealthMaxAttempts 0 hi
      (fun j hj => by simpa using hfirst j hj)
    simpa [waitForContainerHealth] using this
  · intro hall
    exact containerHealthLoop_exhaust inspect logsAt containerHealthMaxAttempts 0
      (fun j hj => by simpa using hall j hj)

/-- C7 witness: a container that reports `starting` once and then
`unhealthy` aborts at attempt 1 with the captured logs; one that never
reports a terminal status within the 30-attempt budget is waved
through. -/
theorem waitForContainerHealth_spec_witness :
    waitForContainerHealth (fun i => if i = 0 then "starting" else "unhealthy")
      (fun _ => ("boot log", "err log")) =
      .error (containerUnhealthyMsg "boot log" "err log") ∧
    waitForContainerHealth (fun _ => "starting") (fun _ => ("", "")) = .ok () := by
  constructor
  · exact ((waitForContainerHealth_spec (fun i => if i = 0 then "starting" else "unhealthy")
      (fun _ => ("boot log", "err log"))).1 1 (by decide) (by decide)).2 (by decide)
  · exact (waitForContainerHealth_spec (fun _ => "starting") (fun _ => ("", ""))).2 (by decide)

/-! ## DeploymentOrchestrator (part_009)

`deploy()` / `deployToExisting()` are modelled over an environment `Env`
giving the behaviour of every collaborator call the pipeline makes: each
stage's outcome is an `Except String` value (`.error m` = the stage
threw with message `m`).  Stages whose internals no claim references
(`setupServer`, `deployApplication`, `configureNginx`, the two halves of
`waitForSsh`) are abstracted to their outcome; `checkBalance` and
`verifyHealth` are embedded in full.  The run records the provisioning
API calls it issues (`calls`) and the number of `ssh.disconnect()`
invocations performed by the method (`disconnects`, the `finally`
block).  The `logs` list (timestamped strings) is elided; the `errors`
list is modelled exactly. -/

/-- Provisioning-API operations the pipeline can issue. -/
inductive ApiCall where
  | getBalance
  | orderVps
  | waitStatus
  | createSnapshot
deriving DecidableEq, Repr

/-- The fields of an `orderVps` result that `deploy` consumes. -/
structure OrderInfo where
  serverId : Nat
  ipv4 : String
  password : String
deriving DecidableEq, Repr

/-- Behaviour of the collaborators during one run. -/
structure Env where
  /-- result of `apiClient.getBalance()` -/
  balance : Except String Int
  /-- outcome of `apiClient.orderVps(...)` -/
  orderVps : Except String OrderInfo
  /-- outcome of `apiClient.waitForStatus(serverId, running, ...)` -/
  waitProvisioning : Except String Unit
  /-- outcome of the static `SshProvisioner.waitForSsh` reachability probe -/
  waitSsh : Except String Unit
  /-- outcome of `ssh.connect(...)` -/
  connect : Except String Unit
  /-- outcome of the whole `setupServer()` stage body -/
  setupServer : Except String Unit
  /-- outcome of the whole `deployApplication()` stage body
  (including its container-health wait) -/
  deployApplication : Except String Unit
  /-- outcome of the whole `configureNginx()` stage body -/
  configureNginx : Except String Unit
  /-- outcome of the certbot `execOrFail` inside `obtainSsl()` -/
  obtainSsl : Except String Unit
  /-- per-attempt outcome of the `curl` health probe `ssh.exec`:
  `.ok c` = exit code `c`, `.error m` = the exec itself threw -/
  healthExec : Nat → Except String Int
  /-- outcome of `apiClient.createSnapshot(...)`, yielding the snapshot id -/
  createSnapshot : Except String Nat
  /-- whether `config.domain` is set -/
  domainConfigured : Bool
  /-- `config.options.createSnapshot` -/
  createSnapshotEnabled : Bool
  /-- `config.options.healthCheckRetries` -/
  healthCheckRetries : Nat

/-- The `DeploymentResult` record (config.ts), restricted to the
modelled fields. -/
structure DeploymentResult where
  success : Bool
  serverId : Nat
  serverIp : String
  snapshotId : Option Nat
  healthCheckPassed : Bool
  errors : List String
deriving DecidableEq, Repr

/-- A full run: the returned result, the provisioning-API calls issued,
and the number of `ssh.disconnect()` invocations performed. -/
structure RunOutcome where
  result : DeploymentResult
  calls : List ApiCall
  disconnects : Nat
deriving DecidableEq, Repr

/-- Mutable per-run accumulator: `this.errors` and the API-call trace. -/
structure RunAcc where
  errors : List String
  calls : List ApiCall
deriving DecidableEq, Repr

/-- Message thrown by `checkBalance` on a non-positive balance. -/
def insufficientBalanceMsg : String := "Insufficient account balance"

/-- Message pushed by `verifyHealth` when every retry missed. -/
def healthFailMsg : String := "Health check failed after all retries"

/-- Non-fatal error entry pushed when the certbot stage throws. -/
def sslFailMsg (m : String) : String := "SSL certificate failed: " ++ m

/-- Non-fatal error entry pushed when snapshot creation throws. -/
def snapshotFailMsg (m : String) : String := "Snapshot creation failed: " ++ m

/-- `DeploymentOrchestrator.checkBalance` (part_009 lines 150-158):
propagates a `getBalance` failure, throws `Insufficient account
balance` when the balance is ≤ 0. -/
def checkBalance (balanceResp : Except String Int) : Except String Unit :=
  match balanceResp with
  | .error m => .error m
  | .ok b => if b ≤ 0 then .error insufficientBalanceMsg else .ok ()

/-- Retry loop of `DeploymentOrchestrator.verifyHealth` (part_009 lines
401-414): a probe returning exit code 0 succeeds immediately; a
non-zero exit or a thrown exec is ignored and the next retry runs after
the fixed interval. -/
def verifyHealthLoop (probe : Nat → Except String Int) : Nat → Nat → Bool
  | _, 0 => false
  | i, k + 1 =>
    match probe i with
    | .ok c => if c = 0 then true else verifyHealthLoop probe (i + 1) k
    | .error _ => verifyHealthLoop probe (i + 1) k

/-- `DeploymentOrchestrator.verifyHealth` (part_009 lines 394-418):
returns whether the probe ever hit, together with the error entries it
pushes onto `this.errors` (exactly one entry when every retry
missed). -/
def verifyHealth (probe : Nat → Except String Int) (retries : Nat) : Bool × List String :=
  if verifyHealthLoop probe 0 retries then (true, []) else (false, [healthFailMsg])

/-- The tail of the pipeline shared verbatim by `deploy` (steps 6-10)
and `deployToExisting`: deployApplication and configureNginx are fatal;
the certbot stage (run only when a domain is configured) and snapshot
creation catch their own errors and append to `this.errors`; the
health-check result gates snapshot creation together with the
`createSnapshot` option.  `.error (m, acc)` = a fatal error `m` unwound
with accumulator `acc`; `.ok (hc, sid, acc)` = reached the end with
health flag `hc` and snapshot id `sid`. -/
def lateStages (env : Env) (acc : RunAcc) : Except (String × RunAcc) (Bool × Option Nat × RunAcc) :=
  match env.deployApplication with
  | .error m => .error (m, acc)
  | .ok _ =>
  match env.configureNginx with
  | .error m => .error (m, acc)
  | .ok _ =>
  let acc1 :=
    if env.domainConfigured then
      match env.obtainSsl with
      | .ok _ => acc
      | .error m => { acc with errors := acc.errors ++ [sslFailMsg m] }
    else acc
  let hc := verifyHealth env.healthExec env.healthCheckRetries
  let acc2 := { acc1 with errors := acc1.errors ++ hc.2 }
  if env.createSnapshotEnabled && hc.1 then
    let acc3 := { acc2 with calls := acc2.calls ++ [ApiCall.createSnapshot] }
    match env.createSnapshot with
    | .ok sid => .ok (hc.1, some sid, acc3)
    | .error m => .ok (hc.1, none, { acc3 with errors := acc3.errors ++ [snapshotFailMsg m] })
  else .ok (hc.1, none, acc2)

/-- The catch-path of `deploy`/`deployToExisting`: push the caught
message, return `success = false` with the best-known server id/ip
(`this.serverId ?? 0`, `this.serverIp ?? ''`), then run the `finally`
disconnect. -/
def failOutcome (m : String) (sid : Option Nat) (ip : String) (errs : List String)
    (calls : List ApiCall) : RunOutcome :=
  { result :=
      { success := false
        serverId := sid.getD 0
        serverIp := ip
        snapshotId := none
        healthCheckPassed := false
        errors := errs ++ [m] }
    calls := calls
    disconnects := 1 }

/-- API calls issued once the first three stages have run. -/
def baseCalls : List ApiCall := [ApiCall.getBalance, ApiCall.orderVps, ApiCall.waitStatus]

/-- `DeploymentOrchestrator.deploy` (part_009 lines 74-145): the
ten-stage pipeline with its top-level try/catch and `finally`
disconnect. -/
def deploy (env : Env) : RunOutcome :=
  match checkBalance env.balance with
  | .error m => failOutcome m none "" [] [ApiCall.getBalance]
  | .ok _ =>
  match env.orderVps with
  | .error m => failOutcome m none "" [] [ApiCall.getBalance, ApiCall.orderVps]
  | .ok info =>
  match env.waitProvisioning with
  | .error m => failOutcome m (some info.serverId) info.ipv4 [] baseCalls
  | .ok _ =>
  match env.waitSsh with
  | .error m => failOutcome m (some info.serverId) info.ipv4 [] baseCalls
  | .ok _ =>
  match env.connect with
  | .error m => failOutcome m (some info.serverId) info.ipv4 [] baseCalls
  | .ok _ =>
  match env.setupServer with
  | .error m => failOutcome m (some info.serverId) info.ipv4 [] baseCalls
  | .ok _ =>
  match lateStages env { errors := [], calls := baseCalls } with
  | .error (m, acc) => failOutcome m (some info.serverId) info.ipv4 acc.errors acc.calls
  | .ok (hc, sid, acc) =>
    { result :=
        { success := true
          serverId := info.serverId
          serverIp := info.ipv4
          snapshotId := sid
          healthCheckPassed := hc
          errors := acc.errors }
      calls := acc.calls
      disconnects := 1 }

/-- `DeploymentOrchestrator.deployToExisting` (part_009 lines 466-527):
seeds the run state with the given server and starts at the SSH wait,
skipping balance/order/provisioning and `setupServer`. -/
def deployToExisting (env : Env) (serverId : Nat) (serverIp : String) : RunOutcome :=
  match env.waitSsh with
  | .error m => failOutcome m (some serverId) serverIp [] []
  | .ok _ =>
  match env.connect with
  | .error m => failOutcome m (some serverId) serverIp [] []
  | .ok _ =>
  match lateStages env { errors := [], calls := [] } with
  | .error (m, acc) => failOutcome m (some serverId) serverIp acc.errors acc.calls
  | .ok (hc, sid, acc) =>
    { result :=
        { success := true
          serverId := serverId
          serverIp := serverIp
          snapshotId := sid
          healthCheckPassed := hc
          errors := acc.errors }
      calls := acc.calls
      disconnects := 1 }

/-- Specification-side view of the fatal/non-fatal policy: the message
of the first fatal stage of `deploy` to fail, if any (in pipeline
order). -/
def firstFatal (env : Env) : Option String :=
  match checkBalance env.balance with
  | .error m => some m
  | .ok _ =>
  match env.orderVps with
  | .error m => some m
  | .ok _ =>
  match env.waitProvisioning with
  | .error m => some m
  | .ok _ =>
  match env.waitSsh with
  | .error m => some m
  | .ok _ =>
  match env.connect with
  | .error m => some m
  | .ok _ =>
  match env.setupServer with
  | .error m => some m
  | .ok _ =>
  match env.deployApplication with
  | .error m => some m
  | .ok _ =>
  match env.configureNginx with
  | .error m => some m
  | .ok _ => none

/-- The first fatal failure of `deployToExisting`, if any. -/
def firstFatalExisting (env : Env) : Option String :=
  match env.waitSsh with
  | .error m => some m
  | .ok _ =>
  match env.connect with
  | .error m => some m
  | .ok _ =>
  match env.deployApplication with
  | .error m => some m
  | .ok _ =>
  match env.configureNginx with
  | .error m => some m
  | .ok _ => none

/-- If every probe within the budget misses (non-zero exit or thrown
exec), the retry loop returns `false`. -/
lemma verifyHealthLoop_false (probe : Nat → Except String Int) :
    ∀ (k i : Nat), (∀ j < k, probe (i + j) ≠ .ok 0) →
      verifyHealthLoop probe i k = false := by
  intro k
  induction k with
  | zero => intro i _; simp [verifyHealthLoop]
  | succ k ih =>
    intro i hall
    have h0 := hall 0 (Nat.succ_pos k)
    rw [Nat.add_zero] at h0
    have hrec := ih (i + 1) (fun j hj => by
      have : i + 1 + j = i + (j + 1) := by omega
      rw [this]
      exact hall (j + 1) (by omega))
    cases hp : probe i with
    | error e => simp [verifyHealthLoop, hp, hrec]
    | ok c =>
      have hc : c ≠ 0 := fun h => h0 (by rw [hp, h])
      simp [verifyHealthLoop, hp, hc, hrec]

/-- A health check whose every retry misses fails and pushes exactly the
retry-exhausted error entry. -/
lemma verifyHealth_fail (probe : Nat → Except String Int) (retries : Nat)
    (h : ∀ j < retries, probe j ≠ .ok 0) :
    verifyHealth probe retries = (false, [healthFailMsg]) := by
  have := verifyHealthLoop_false probe retries 0 (fun j hj => by simpa using h j hj)
  simp [verifyHealth, this]

/-- Characterization of the shared pipeline tail when its two fatal
stages succeed: it reaches the end, reports the health-check result,
appends the health-check error entries to the run's error list, and
issues the snapshot-creation call exactly when snapshots are enabled
and the health check passed. -/
lemma lateStages_ok (env : Env) (acc : RunAcc)
    (h7 : env.deployApplication = Except.ok ()) (h8 : env.configureNginx = Except.ok ()) :
    ∃ sid acc',
      lateStages env acc =
        .ok ((verifyHealth env.healthExec env.healthCheckRetries).1, sid, acc') ∧
      (∀ e ∈ (verifyHealth env.healthExec env.healthCheckRetries).2, e ∈ acc'.errors) ∧
      (∀ c, c ∈ acc'.calls ↔ c ∈ acc.calls ∨ (c = ApiCall.createSnapshot ∧
        (env.createSnapshotEnabled &&
          (verifyHealth env.healthExec env.healthCheckRetries).1) = true)) := by
  unfold lateStages
  simp only [h7, h8]
  rcases hv : verifyHealth env.healthExec env.healthCheckRetries with ⟨hc, herrs⟩
  by_cases hgate : (env.createSnapshotEnabled && hc) = true
  · cases hsnap : env.createSnapshot with
    | ok sid =>
      cases hdom : env.domainConfigured
      · refine ⟨some sid,
          { errors := acc.errors ++ herrs, calls := acc.calls ++ [ApiCall.createSnapshot] },
          by simp [hv, hgate, hsnap], fun e he => by simp [he], fun c => by simp [hv, hgate]⟩
      · cases hssl : env.obtainSsl with
        | ok u =>
          refine ⟨some sid,
            { errors := acc.errors ++ herrs, calls := acc.calls ++ [ApiCall.createSnapshot] },
            by simp [hv, hgate, hsnap, hssl], fun e he => by simp [he],
            fun c => by simp [hv, hgate]⟩
        | error em =>
          refine ⟨some sid,
            { errors := acc.errors ++ [sslFailMsg em] ++ herrs,
              calls := acc.calls ++ [ApiCall.createSnapshot] },
            by simp [hv, hgate, hsnap, hssl], fun e he => by simp [he],
            fun c => by simp [hv, hgate]⟩
    | error sm =>
      cases hdom : env.domainConfigured
      · refine ⟨none,
          { errors := acc.errors ++ herrs ++ [snapshotFailMsg sm],
            calls := acc.calls ++ [ApiCall.createSnapshot] },
          by simp [hv, hgate, hsnap], fun e he => by simp [he], fun c => by simp [hv, hgate]⟩
      · cases hssl : env.obtainSsl with
        | ok u =>
          refine ⟨none,
            { errors := acc.errors ++ herrs ++ [snapshotFailMsg sm],
              calls := acc.calls ++ [ApiCall.createSnapshot] },
            by simp [hv, hgate, hsnap, hssl], fun e he => by simp [he],
            fun c => by simp [hv, hgate]⟩
        | error em =>
          refine ⟨none,
            { errors := acc.errors ++ [sslFailMsg em] ++ herrs ++ [snapshotFailMsg sm],
              calls := acc.calls ++ [ApiCall.createSnapshot] },
            by simp [hv, hgate, hsnap, hssl], fun e he => by simp [he],
            fun c => by simp [hv, hgate]⟩
  · cases hdom : env.domainConfigured
    · refine ⟨none, { errors := acc.errors ++ herrs, calls := acc.calls },
        by simp [hv, hgate], fun e he => by simp [he], fun c => by simp [hv, hgate]⟩
    · cases hssl : env.obtainSsl with
      | ok u =>
        refine ⟨none, { errors := acc.errors ++ herrs, calls := acc.calls },
          by simp [hv, hgate, hssl], fun e he => by simp [he], fun c => by simp [hv, hgate]⟩
      | error em =>
        refine ⟨none,
          { errors := acc.errors ++ [sslFailMsg em] ++ herrs, calls := acc.calls },
          by simp [hv, hgate, hssl], fun e he => by simp [he], fun c => by simp [hv, hgate]⟩

/-- If some fatal stage of `deploy` fails (first message `m`), the run
returns `success = false` with error list exactly `[m]`, performs the
`finally` disconnect once, and never issues the snapshot call. -/
lemma deploy_fatal (env : Env) (m : String) (h : firstFatal env = some m) :
    (deploy env).result.success = false ∧ (deploy env).result.errors = [m] ∧
    (deploy env).disconnects = 1 ∧ ApiCall.createSnapshot ∉ (deploy env).calls := by
  unfold firstFatal at h
  unfold deploy
  cases h1 : checkBalance env.balance with
  | error e =>
    simp only [h1] at h ⊢
    simp only [Option.some.injEq] at h
    subst h
    simp [failOutcome]
  | ok u1 =>
  simp only [h1] at h ⊢
  cases h2 : env.orderVps with
  | error e =>
    simp only [h2] at h ⊢
    simp only [Option.some.injEq] at h
    subst h
    simp [failOutcome]
  | ok info =>
  simp only [h2] at h ⊢
  cases h3 : env.waitProvisioning with
  | error e =>
    simp only [h3] at h ⊢
    simp only [Option.some.injEq] at h
    subst h
    simp [failOutcome, baseCalls]
  | ok u3 =>
  simp only [h3] at h ⊢
  cases h4 : env.waitSsh with
  | error e =>
    simp only [h4] at h ⊢
    simp only [Option.some.injEq] at h
    subst h
    simp [failOutcome, baseCalls]
  | ok u4 =>
  simp only [h4] at h ⊢
  cases h5 : env.connect with
  | error e =>
    simp only [h5] at h ⊢
    simp only [Option.some.injEq] at h
    subst h
    simp [failOutcome, baseCalls]
  | ok u5 =>
  simp only [h5] at h ⊢
  cases h6 : env.setupServer with
  | error e =>
    simp only [h6] at h ⊢
    simp only [Option.some.injEq] at h
    subst h
    simp [failOutcome, baseCalls]
  | ok u6 =>
  simp only [h6] at h ⊢
  cases h7 : env.deployApplication with
  | error e =>
    simp only [h7] at h ⊢
    simp only [Option.some.injEq] at h
    subst h
    simp [lateStages, h7, failOutcome, baseCalls]
  | ok u7 =>
  simp only [h7] at h ⊢
  cases h8 : env.configureNginx with
  | error e =>
    simp only [h8] at h ⊢
    simp only [Option.some.injEq] at h
    subst h
    cases u7
    simp [lateStages, h7, h8, failOutcome, baseCalls]
  | ok u8 =>
  simp only [h8] at h
  exact absurd h (by simp)

/-- If no fatal stage of `deploy` fails, the run returns
`success = true`, performs the `finally` disconnect once, reports the
health-check result, keeps every health-check error entry, and issues
the snapshot call exactly when snapshots are enabled and the health
check passed. -/
lemma deploy_nofatal (env : Env) (h : firstFatal env = none) :
    (deploy env).result.success = true ∧
    (deploy env).disconnects = 1 ∧
    (deploy env).result.healthCheckPassed =
      (verifyHealth env.healthExec env.healthCheckRetries).1 ∧
    (∀ e ∈ (verifyHealth env.healthExec env.healthCheckRetries).2,
      e ∈ (deploy env).result.errors) ∧
    (ApiCall.createSnapshot ∈ (deploy env).calls ↔
      (env.createSnapshotEnabled &&
        (verifyHealth env.healthExec env.healthCheckRetries).1) = true) := by
  unfold firstFatal at h
  unfold deploy
  cases h1 : checkBalance env.balance with
  | error e => simp only [h1] at h; exact absurd h (by simp)
  | ok u1 =>
  simp only [h1] at h ⊢
  cases h2 : env.orderVps with
  | error e => simp only [h2] at h; exact absurd h (by simp)
  | ok info =>
  simp only [h2] at h ⊢
  cases h3 : env.waitProvisioning with
  | error e => simp only [h3] at h; exact absurd h (by simp)
  | ok u3 =>
  simp only [h3] at h ⊢
  cases h4 : env.waitSsh with
  | error e => simp only [h4] at h; exact absurd h (by simp)
  | ok u4 =>
  simp only [h4] at h ⊢
  cases h5 : env.connect with
  | error e => simp only [h5] at h; exact absurd h (by simp)
  | ok u5 =>
  simp only [h5] at h ⊢
  cases h6 : env.setupServer with
  | error e => simp only [h6] at h; exact absurd h (by simp)
  | ok u6 =>
  simp only [h6] at h ⊢
  cases h7 : env.deployApplication with
  | error e => simp only [h7] at h; exact absurd h (by simp)
  | ok u7 =>
  simp only [h7] at h
  cases h8 : env.configureNginx with
  | error e => simp only [h8] at h; exact absurd h (by simp)
  | ok u8 =>
  cases u7
  cases u8
  obtain ⟨sid, acc', heq, hmem, hcalls⟩ :=
    lateStages_ok env { errors := [], calls := baseCalls } h7 h8
  rw [heq]
  refine ⟨rfl, rfl, rfl, hmem, ?_⟩
  rw [hcalls ApiCall.createSnapshot]
  simp [baseCalls]

/-- `deployToExisting` analogue of `deploy_fatal`. -/
lemma deployToExisting_fatal (env : Env) (serverId : Nat) (serverIp : String)
    (m : String) (h : firstFatalExisting env = some m) :
    (deployToExisting env serverId serverIp).result.success = false ∧
    (deployToExisting env serverId serverIp).result.errors = [m] ∧
    (deployToExisting env serverId serverIp).disconnects = 1 ∧
    ApiCall.createSnapshot ∉ (deployToExisting env serverId serverIp).calls := by
  unfold firstFatalExisting at h
  unfold deployToExisting
  cases h4 : env.waitSsh with
  | error e =>
    simp only [h4] at h ⊢
    simp only [Option.some.injEq] at h
    subst h
    simp [failOutcome]
  | ok u4 =>
  simp only [h4] at h ⊢
  cases h5 : env.connect with
  | error e =>
    simp only [h5] at h ⊢
    simp only [Option.some.injEq] at h
    subst h
    simp [failOutcome]
  | ok u5 =>
  simp only [h5] at h ⊢
  cases h7 : env.deployApplication with
  | error e =>
    simp only [h7] at h ⊢
    simp only [Option.some.injEq] at h
    subst h
    simp [lateStages, h7, failOutcome]
  | ok u7 =>
  simp only [h7] at h ⊢
  cases h8 : env.configureNginx with
  | error e =>
    simp only [h8] at h ⊢
    simp only [Option.some.injEq] at h
    subst h
    cases u7
    simp [lateStages, h7, h8, failOutcome]
  | ok u8 =>
  simp only [h8] at h
  exact absurd h (by simp)

/-- `deployToExisting` analogue of `deploy_nofatal`. -/
lemma deployToExisting_nofatal (env : Env) (serverId : Nat) (serverIp : String)
    (h : firstFatalExisting env = none) :
    (deployToExisting env serverId serverIp).result.success = true ∧
    (deployToExisting env serverId serverIp).disconnects = 1 ∧
    (deployToExisting env serverId serverIp).result.healthCheckPassed =
      (verifyHealth env.healthExec env.healthCheckRetries).1 ∧
    (∀ e ∈ (verifyHealth env.healthExec env.healthCheckRetries).2,
      e ∈ (deployToExisting env serverId serverIp).result.errors) ∧
    (ApiCall.createSnapshot ∈ (deployToExisting env serverId serverIp).calls ↔
      (env.createSnapshotEnabled &&
        (verifyHealth env.healthExec env.healthCheckRetries).1) = true) := by
  unfold firstFatalExisting at h
  unfold deployToExisting
  cases h4 : env.waitSsh with
  | error e => simp only [h4] at h; exact absurd h (by simp)
  | ok u4 =>
  simp only [h4] at h ⊢
  cases h5 : env.connect with
  | error e => simp only [h5] at h; exact absurd h (by simp)
  | ok u5 =>
  simp only [h5] at h ⊢
  cases h7 : env.deployApplication with
  | error e => simp only [h7] at h; exact absurd h (by simp)
  | ok u7 =>
  simp only [h7] at h
  cases h8 : env.configureNginx with
  | error e => simp only [h8] at h; exact absurd h (by simp)
  | ok u8 =>
  cases u7
  cases u8
  obtain ⟨sid, acc', heq, hmem, hcalls⟩ :=
    lateStages_ok env { errors := [], calls := [] } h7 h8
  rw [heq]
  refine ⟨rfl, rfl, rfl, hmem, ?_⟩
  rw [hcalls ApiCall.createSnapshot]
  simp

/-- C1: in every run of `deploy()` / `deployToExisting()` whose fatal
stages before HealthCheck all succeed, a health check that exhausts all
retries still yields `success = true` with `healthCheckPassed = false`,
appends the health-check error entry, and never attempts snapshot
creation; and in every run whatsoever the snapshot stage is attempted
only if the health check passed and snapshot creation is enabled in the
configuration. -/
theorem deploy_healthcheck_nonfatal_and_snapshot_gating :
    (∀ env : Env,
      checkBalance env.balance = Except.ok () →
      (∃ info, env.orderVps = Except.ok info) →
      env.waitProvisioning = Except.ok () →
      env.waitSsh = Except.ok () →
      env.connect = Except.ok () →
      env.setupServer = Except.ok () →
      env.deployApplication = Except.ok () →
      env.configureNginx = Except.ok () →
      (∀ k < env.healthCheckRetries, env.healthExec k ≠ Except.ok 0) →
      (deploy env).result.success = true ∧
      (deploy env).result.healthCheckPassed = false ∧
      healthFailMsg ∈ (deploy env).result.errors ∧
      ApiCall.createSnapshot ∉ (deploy env).calls) ∧
    (∀ (env : Env) (serverId : Nat) (serverIp : String),
      env.waitSsh = Except.ok () →
      env.connect = Except.ok () →
      env.deployApplication = Except.ok () →
      env.configureNginx = Except.ok () →
      (∀ k < env.healthCheckRetries, env.healthExec k ≠ Except.ok 0) →
      (deployToExisting env serverId serverIp).result.success = true ∧
      (deployToExisting env serverId serverIp).result.healthCheckPassed = false ∧
      healthFailMsg ∈ (deployToExisting env serverId serverIp).result.errors ∧
      ApiCall.createSnapshot ∉ (deployToExisting env serverId serverIp).calls) ∧
    (∀ env : Env, ApiCall.createSnapshot ∈ (deploy env).calls →
      env.createSnapshotEnabled = true ∧
      (deploy env).result.healthCheckPassed = true) ∧
    (∀ (env : Env) (serverId : Nat) (serverIp : String),
      ApiCall.createSnapshot ∈ (deployToExisting env serverId serverIp).calls →
      env.createSnapshotEnabled = true ∧
      (deployToExisting env serverId serverIp).result.healthCheckPassed = true) := by
  refine ⟨?_, ?_, ?_, ?_⟩
  · intro env hcb hord h3 h4 h5 h6 h7 h8 hfail
    obtain ⟨info, hinfo⟩ := hord
    have hnone : firstFatal env = none := by
      unfold firstFatal
      simp only [hcb, hinfo, h3, h4, h5, h6, h7, h8]
    have hvf := verifyHealth_fail env.healthExec env.healthCheckRetries hfail
    obtain ⟨hsucc, _, hhc, hmem, hsnap⟩ := deploy_nofatal env hnone
    refine ⟨hsucc, ?_, ?_, ?_⟩
    · rw [hhc, hvf]
    · exact hmem healthFailMsg (by rw [hvf]; simp)
    · intro hin
      have hb := hsnap.1 hin
      rw [hvf] at hb
      simp at hb
  · intro env serverId serverIp h4 h5 h7 h8 hfail
    have hnone : firstFatalExisting env = none := by
      unfold firstFatalExisting
      simp only [h4, h5, h7, h8]
    have hvf := verifyHealth_fail env.healthExec env.healthCheckRetries hfail
    obtain ⟨hsucc, _, hhc, hmem, hsnap⟩ := deployToExisting_nofatal env serverId serverIp hnone
    refine ⟨hsucc, ?_, ?_, ?_⟩
    · rw [hhc, hvf]
    · exact hmem healthFailMsg (by rw [hvf]; simp)
    · intro hin
      have hb := hsnap.1 hin
      rw [hvf] at hb
      simp at hb
  · intro env hin
    cases hf : firstFatal env with
    | some m => exact absurd hin (deploy_fatal env m hf).2.2.2
    | none =>
      obtain ⟨_, _, hhc, _, hsnap⟩ := deploy_nofatal env hf
      have hb := hsnap.1 hin
      rw [Bool.and_eq_true] at hb
      exact ⟨hb.1, by rw [hhc]; exact hb.2⟩
  · intro env serverId serverIp hin
    cases hf : firstFatalExisting env with
    | some m => exact absurd hin (deployToExisting_fatal env serverId serverIp m hf).2.2.2
    | none =>
      obtain ⟨_, _, hhc, _, hsnap⟩ := deployToExisting_nofatal env serverId serverIp hf
      have hb := hsnap.1 hin
      rw [Bool.and_eq_true] at hb
      exact ⟨hb.1, by rw [hhc]; exact hb.2⟩

/-- A run in which every stage succeeds except the health probe, which
always exits 7. -/
def envC1fail : Env :=
  { balance := .ok 10
    orderVps := .ok { serverId := 5, ipv4 := "192.0.2.1", password := "pw" }
    waitProvisioning := .ok ()
    waitSsh := .ok ()
    connect := .ok ()
    setupServer := .ok ()
    deployApplication := .ok ()
    configureNginx := .ok ()
    obtainSsl := .ok ()
    healthExec := fun _ => .ok 7
    createSnapshot := .ok 99
    domainConfigured := false
    createSnapshotEnabled := true
    healthCheckRetries := 3 }

/-- A run in which everything succeeds, the health probe exits 0, and
snapshots are enabled. -/
def envC1pass : Env :=
  { balance := .ok 10
    orderVps := .ok { serverId := 5, ipv4 := "192.0.2.1", password := "pw" }
    waitProvisioning := .ok ()
    waitSsh := .ok ()
    connect := .ok ()
    setupServer := .ok ()
    deployApplication := .ok ()
    configureNginx := .ok ()
    obtainSsl := .ok ()
    healthExec := fun _ => .ok 0
    createSnapshot := .ok 42
    domainConfigured := false
    createSnapshotEnabled := true
    healthCheckRetries := 1 }

/-- C1 witness: the exhausted-retries run succeeds without a snapshot
attempt, and the snapshot call issued by the healthy run entails that
snapshots were enabled and the health check passed. -/
theorem deploy_healthcheck_nonfatal_and_snapshot_gating_witness :
    ((deploy envC1fail).result.success = true ∧
      (deploy envC1fail).result.healthCheckPassed = false ∧
      healthFailMsg ∈ (deploy envC1fail).result.errors ∧
      ApiCall.createSnapshot ∉ (deploy envC1fail).calls) ∧
    (envC1pass.createSnapshotEnabled = true ∧
      (deploy envC1pass).result.healthCheckPassed = true) := by
  constructor
  · exact deploy_healthcheck_nonfatal_and_snapshot_gating.1 envC1fail rfl ⟨_, rfl⟩
      rfl rfl rfl rfl rfl rfl (by intro k hk; simp [envC1fail])
  · exact deploy_healthcheck_nonfatal_and_snapshot_gating.2.2.1 envC1pass (by decide)

/-- C4: whatever the behaviour of the collaborators and wherever the
pipeline stops (success, returned failure, or internal exception), both
`deploy()` and `deployToExisting()` invoke `ssh.disconnect()` exactly
once (the `finally` block) before returning. -/
theorem deploy_disconnects_exactly_once (env : Env) (serverId : Nat) (serverIp : String) :
    (deploy env).disconnects = 1 ∧
    (deployToExisting env serverId serverIp).disconnects = 1 := by
  constructor
  · cases hf : firstFatal env with
    | some m => exact (deploy_fatal env m hf).2.2.1
    | none => exact (deploy_nofatal env hf).2.1
  · cases hf : firstFatalExisting env with
    | some m => exact (deployToExisting_fatal env serverId serverIp m hf).2.2.1
    | none => exact (deployToExisting_nofatal env serverId serverIp hf).2.1

/-- C5: no exception escapes `deploy()` / `deployToExisting()`: for
every collaborator behaviour, if some fatal stage throws (first message
`m`), the run returns a record with `success = false` and `m` appended
to the error list, after the cleanup disconnect; if no fatal stage
throws, it returns `success = true` — also after cleanup — whatever the
non-fatal stages did. -/
theorem deploy_no_exception_escape (env : Env) (serverId : Nat) (serverIp : String) :
    (∀ m, firstFatal env = some m →
      (deploy env).result.success = false ∧
      m ∈ (deploy env).result.errors ∧
      (deploy env).disconnects = 1) ∧
    (firstFatal env = none →
      (deploy env).result.success = true ∧ (deploy env).disconnects = 1) ∧
    (∀ m, firstFatalExisting env = some m →
      (deployToExisting env serverId serverIp).result.success = false ∧
      m ∈ (deployToExisting env serverId serverIp).result.errors ∧
      (deployToExisting env serverId serverIp).disconnects = 1) ∧
    (firstFatalExisting env = none →
      (deployToExisting env serverId serverIp).result.success = true ∧
      (deployToExisting env serverId serverIp).disconnects = 1) := by
  refine ⟨?_, ?_, ?_, ?_⟩
  · intro m hf
    obtain ⟨hsucc, herrs, hdisc, _⟩ := deploy_fatal env m hf
    exact ⟨hsucc, by rw [herrs]; simp, hdisc⟩
  · intro hf
    obtain ⟨hsucc, hdisc, _, _, _⟩ := deploy_nofatal env hf
    exact ⟨hsucc, hdisc⟩
  · intro m hf
    obtain ⟨hsucc, herrs, hdisc, _⟩ := deployToExisting_fatal env serverId serverIp m hf
    exact ⟨hsucc, by rw [herrs]; simp, hdisc⟩
  · intro hf
    obtain ⟨hsucc, hdisc, _, _, _⟩ := deployToExisting_nofatal env serverId serverIp hf
    exact ⟨hsucc, hdisc⟩

/-- A run whose `setupServer` stage throws. -/
def envC5fatal : Env :=
  { balance := .ok 10
    orderVps := .ok { serverId := 5, ipv4 := "192.0.2.1", password := "pw" }
    waitProvisioning := .ok ()
    waitSsh := .ok ()
    connect := .ok ()
    setupServer := .error "Setup script failed: disk full"
    deployApplication := .ok ()
    configureNginx := .ok ()
    obtainSsl := .ok ()
    healthExec := fun _ => .ok 0
    createSnapshot := .ok 99
    domainConfigured := false
    createSnapshotEnabled := true
    healthCheckRetries := 1 }

/-- A run in which nothing fatal happens but the certbot stage throws. -/
def envC5clean : Env :=
  { balance := .ok 10
    orderVps := .ok { serverId := 5, ipv4 := "192.0.2.1", password := "pw" }
    waitProvisioning := .ok ()
    waitSsh := .ok ()
    connect := .ok ()
    setupServer := .ok ()
    deployApplication := .ok ()
    configureNginx := .ok ()
    obtainSsl := .error "certbot: DNS challenge failed"
    healthExec := fun _ => .ok 0
    createSnapshot := .ok 99
    domainConfigured := true
    createSnapshotEnabled := false
    healthCheckRetries := 1 }

/-- C5 witness: the run whose setup stage throws returns a failed result
carrying the message after one disconnect, and the run whose only
failure is the non-fatal certificate stage still returns success. -/
theorem deploy_no_exception_escape_witness :
    ((deploy envC5fatal).result.success = false ∧
      "Setup script failed: disk full" ∈ (deploy envC5fatal).result.errors ∧
      (deploy envC5fatal).disconnects = 1) ∧
    ((deploy envC5clean).result.success = true ∧ (deploy envC5clean).disconnects = 1) := by
  constructor
  · exact (deploy_no_exception_escape envC5fatal 0 "").1 "Setup script failed: disk full" rfl
  · exact (deploy_no_exception_escape envC5clean 0 "").2.1 rfl

/-- C6: if `getBalance()` reports a balance of zero or less, `deploy()`
returns `success = false` with `Insufficient account balance` in the
error list, and never issues the order call against the provisioning
API. -/
theorem deploy_insufficient_balance (env : Env) (b : Int)
    (hb : env.balance = Except.ok b) (hb0 : b ≤ 0) :
    (deploy env).result.success = false ∧
    insufficientBalanceMsg ∈ (deploy env).result.errors ∧
    ApiCall.orderVps ∉ (deploy env).calls := by
  have hcb : checkBalance env.balance = .error insufficientBalanceMsg := by
    simp [checkBalance, hb, hb0]
  unfold deploy
  simp only [hcb]
  simp [failOutcome]

/-- A run whose account balance is zero. -/
def envC6zero : Env :=
  { balance := .ok 0
    orderVps := .ok { serverId := 5, ipv4 := "192.0.2.1", password := "pw" }
    waitProvisioning := .ok ()
    waitSsh := .ok ()
    connect := .ok ()
    setupServer := .ok ()
    deployApplication := .ok ()
    configureNginx := .ok ()
    obtainSsl := .ok ()
    healthExec := fun _ => .ok 0
    createSnapshot := .ok 99
    domainConfigured := false
    createSnapshotEnabled := true
    healthCheckRetries := 1 }

/-- C6 witness: with balance 0 the run fails with the insufficient
balance error and no order call. -/
theorem deploy_insufficient_balance_witness :
    (deploy envC6zero).result.success = false ∧
    insufficientBalanceMsg ∈ (deploy envC6zero).result.errors ∧
    ApiCall.orderVps ∉ (deploy envC6zero).calls :=
  deploy_insufficient_balance envC6zero 0 rfl (by decide)
